import Mathlib

/-!
Verification of the microcluster membership, transport, and lifecycle layer.

The definitions below are a shallow embedding of the Go sources: the
membership store (internal/db/cluster/cluster_member.go), the dqlite
connection tunnel, the Join retry loop, the heartbeat coordinator and the
upgrade-notification channel (internal/db), and the bootstrap path of the
daemon (internal/daemon). SQL tables are embedded as lists of rows,
channels as explicit buffer states, and the surrounding network and engine
effects as explicit outcome parameters.
-/

namespace Microcluster

/-- Role of a dqlite cluster member, stored as text in the membership table. -/
abbrev Role := String

/-- The role value assigned at admission time (constant Pending in cluster_member.go). -/
def Pending : Role := "PENDING"

/-- One row of the internal_cluster_members table (struct InternalClusterMember).
Timestamps are embedded as integers, with 0 the zero time. -/
structure InternalClusterMember where
  id : Nat
  name : String
  address : String
  certificate : String
  schema : Int
  heartbeat : Int
  role : Role
deriving DecidableEq

/-- Whether an Except result is a success. -/
def isOk {ε α : Type} : Except ε α → Bool
  | Except.ok _ => true
  | Except.error _ => false

/-- GetClusterMemberSchemaVersions runs SELECT schema FROM internal_cluster_members
WHERE NOT role=(the lowercase literal "pending"). SQLite compares TEXT with the
default case-sensitive BINARY collation, so the embedded filter compares the role
column against the lowercase literal exactly as written in the SQL. -/
def GetClusterMemberSchemaVersions (table : List InternalClusterMember) : List Int :=
  (table.filter (fun r => !(r.role == "pending"))).map (fun r => r.schema)

/-- UpdateClusterMemberSchemaVersion runs UPDATE internal_cluster_members SET schema
WHERE address matches, then checks RowsAffected and returns an error unless exactly
one row was affected. -/
def UpdateClusterMemberSchemaVersion (table : List InternalClusterMember)
    (version : Int) (address : String) : Except String (List InternalClusterMember) :=
  let rowsAffected := (table.filter (fun r => r.address == address)).length
  if rowsAffected ≠ 1 then
    Except.error ("updated " ++ toString rowsAffected ++ " rows instead of 1")
  else
    Except.ok (table.map (fun r =>
      if r.address == address then { r with schema := version } else r))

/-- Split a character list at its first colon, returning the parts before and
after it, or none when no colon occurs. -/
def splitHostPort : List Char → Option (List Char × List Char)
  | [] => none
  | c :: rest =>
      if c = ':' then some ([], rest)
      else (splitHostPort rest).map (fun p => (c :: p.1, p.2))

/-- The numeric value of a decimal digit character, none for any other character. -/
def digitVal (c : Char) : Option Nat :=
  if 48 ≤ c.toNat ∧ c.toNat ≤ 57 then some (c.toNat - 48) else none

/-- Read a decimal number from characters, failing on any non-digit. -/
def digitsToNatAux : List Char → Nat → Option Nat
  | [], acc => some acc
  | c :: rest, acc =>
      match digitVal c with
      | none => none
      | some d => digitsToNatAux rest (acc * 10 + d)

/-- A nonempty all-digit character list as a number. -/
def digitsToNat : List Char → Option Nat
  | [] => none
  | cs => digitsToNatAux cs 0

/-- Modelled from the spec: ParseAddrPort of internal/rest/types is not under src.
The spec describes the address as a host:port string parsed on read; the model
splits at the first colon and requires a numeric port. -/
def ParseAddrPort (s : String) : Option (String × Nat) :=
  match splitHostPort s.toList with
  | none => none
  | some hp =>
      match digitsToNat hp.2 with
      | none => none
      | some p => some (String.mk hp.1, p)

/-- Modelled from the spec: ParseX509Certificate of internal/rest/types is not under
src. The spec describes the certificate column as PEM-encoded text parsed on read
into a certificate object; the model requires the PEM begin marker. -/
def ParseX509Certificate (s : String) : Option String :=
  if List.isPrefixOf "-----BEGIN CERTIFICATE-----".toList s.toList then some s
  else none

/-- Modelled from the spec: the member status constant types.MemberUnreachable
reported by ToAPI; actual reachability is never computed by this layer. -/
def MemberUnreachable : String := "UNREACHABLE"

/-- API form of a cluster member as built by ToAPI (types.ClusterMember). -/
structure ClusterMember where
  name : String
  address : String × Nat
  certificate : String
  role : String
  schemaVersion : Int
  lastHeartbeat : Int
  status : String
deriving DecidableEq

/-- ToAPI from cluster_member.go: parse the address, then parse the certificate,
returning an error if either fails, and otherwise build the API member with status
MemberUnreachable unconditionally. -/
def ToAPI (c : InternalClusterMember) : Except String ClusterMember :=
  match ParseAddrPort c.address with
  | none => Except.error ("Failed to parse address " ++ c.address ++ " of database cluster member")
  | some addr =>
    match ParseX509Certificate c.certificate with
    | none => Except.error ("Failed to parse certificate of database cluster member with address " ++ c.address)
    | some cert =>
      Except.ok { name := c.name, address := addr, certificate := cert,
                  role := c.role, schemaVersion := c.schema,
                  lastHeartbeat := c.heartbeat, status := MemberUnreachable }

/-- Errors returned by dqliteNetworkDial after the TLS connection is established,
one constructor per distinct return path in the source. -/
inductive DialError where
  | writeFailed
  | readFailed
  | upgradeNeeded
  | unexpectedStatus (code : Nat)
  | missingUpgradeHeader
deriving DecidableEq

/-- HTTP status 426 (http.StatusUpgradeRequired). -/
def StatusUpgradeRequired : Nat := 426

/-- HTTP status 101 (http.StatusSwitchingProtocols). -/
def StatusSwitchingProtocols : Nat := 101

/-- The observable behaviour of the peer during the request and response exchange
of one dial: whether the request write succeeds, whether the response read
succeeds, and the status code and Upgrade header of the response. -/
structure Exchange where
  writeOk : Bool
  readOk : Bool
  statusCode : Nat
  upgradeHeader : String
deriving DecidableEq

/-- dqliteNetworkDial after the TLS connection is established: write the upgrade
request, read the response, fail with the distinguished upgradeNeeded error on
status 426, fail on any status other than 101, fail on an Upgrade header other
than dqlite, and otherwise hand back the connection. -/
def dqliteNetworkDialExchange (ex : Exchange) : Except DialError Unit :=
  if !ex.writeOk then Except.error DialError.writeFailed
  else if !ex.readOk then Except.error DialError.readFailed
  else if ex.statusCode = StatusUpgradeRequired then Except.error DialError.upgradeNeeded
  else if ex.statusCode ≠ StatusSwitchingProtocols then Except.error (DialError.unexpectedStatus ex.statusCode)
  else if ex.upgradeHeader ≠ "dqlite" then Except.error DialError.missingUpgradeHeader
  else Except.ok ()

/-- The revert pattern of dqliteNetworkDial: conn.Close is registered right after
the TLS dial and disarmed only by revert.Success on the single success path, so
the connection is closed exactly when the exchange returns an error. -/
def dialConnClosed (ex : Exchange) : Bool :=
  !(isOk (dqliteNetworkDialExchange ex))

/-- Outcome of one iteration of the DB.Join loop: dqlite.New fails, db.Open
succeeds, db.Open fails with schema.ErrGracefulAbort (carrying whether the
subsequent db.db.Close succeeds), or db.Open fails with any other error. -/
inductive AttemptOutcome where
  | newFail (e : String)
  | openOk
  | openGraceful (closeOk : Bool)
  | openFail (e : String)
deriving DecidableEq

/-- Observable result of running the Join loop against a script of attempt
outcomes: the returned value (none when the script is exhausted with the loop
still running), the number of db.db.Close calls, the parameters of each engine
configuration attempt, and the number of close-failure log entries. -/
structure JoinRun where
  result : Option (Except String Unit)
  closes : Nat
  attempts : List (String × List String)
  closeErrorLogs : Nat

/-- DB.Join: loop forever; a dqlite.New failure returns the wrapped error; an
Open success returns nil; a graceful abort closes the handle, logs a close
failure without propagating it, and retries with the same cluster certificate
and join addresses; any other Open failure is returned to the caller. -/
def Join (cert : String) (addrs : List String) : List AttemptOutcome → JoinRun
  | [] => { result := none, closes := 0, attempts := [], closeErrorLogs := 0 }
  | AttemptOutcome.newFail e :: _ =>
      { result := some (Except.error ("Failed to join dqlite cluster " ++ e)),
        closes := 0, attempts := [(cert, addrs)], closeErrorLogs := 0 }
  | AttemptOutcome.openOk :: _ =>
      { result := some (Except.ok ()), closes := 0,
        attempts := [(cert, addrs)], closeErrorLogs := 0 }
  | AttemptOutcome.openGraceful closeOk :: rest =>
      let r := Join cert addrs rest
      { result := r.result, closes := r.closes + 1,
        attempts := (cert, addrs) :: r.attempts,
        closeErrorLogs := (if closeOk then 0 else 1) + r.closeErrorLogs }
  | AttemptOutcome.openFail e :: _ =>
      { result := some (Except.error e), closes := 0,
        attempts := [(cert, addrs)], closeErrorLogs := 0 }

/-- Whether an attempt outcome ends the Join loop. -/
def terminal : AttemptOutcome → Bool
  | AttemptOutcome.openGraceful _ => false
  | _ => true

/-- The value Join returns at a terminal attempt outcome (the graceful case is
never terminal and its value here is irrelevant). -/
def terminalResult : AttemptOutcome → Except String Unit
  | AttemptOutcome.newFail e => Except.error ("Failed to join dqlite cluster " ++ e)
  | AttemptOutcome.openOk => Except.ok ()
  | AttemptOutcome.openFail e => Except.error e
  | AttemptOutcome.openGraceful _ => Except.ok ()

/-- The state of a Go channel of unit values: its buffer capacity and the
number of buffered, unconsumed notifications. -/
structure GoChan where
  capacity : Nat
  pending : Nat
deriving DecidableEq

/-- The upgrade channel created by NewDB: an unbuffered channel of unit values. -/
def newUpgradeCh : GoChan := { capacity := 0, pending := 0 }

/-- DB.NotifyUpgraded: a select with a default branch, hence never blocking and
never failing; with no concurrently waiting consumer the send is enqueued only
if buffer space remains and is otherwise dropped. Returns whether the
notification was enqueued, together with the new channel state. -/
def NotifyUpgraded (ch : GoChan) : Bool × GoChan :=
  if ch.pending < ch.capacity then (true, { ch with pending := ch.pending + 1 })
  else (false, ch)

/-- The environment one DB.heartbeat invocation observes: whether the handle is
open, whether resolving the leader client succeeds, the self-reported leader
address (none when resolving it fails), the own dqlite address of this node,
and whether obtaining the local control-plane client succeeds. -/
structure HeartbeatEnv where
  isOpenNow : Bool
  leaderClientOk : Bool
  leaderInfoAddr : Option String
  dqliteAddr : String
  localClientOk : Bool
deriving DecidableEq

/-- DB.heartbeat: abort when the handle is not open, when leader resolution
fails, when this node is not the reported leader, or when no local client is
available; otherwise issue the begin-heartbeat-round instruction. The Go
function returns nothing to its caller, so no outcome is surfaced as an error;
the embedded result records only whether the instruction was issued. -/
def heartbeat (env : HeartbeatEnv) : Bool :=
  if !env.isOpenNow then false
  else if !env.leaderClientOk then false
  else
    match env.leaderInfoAddr with
    | none => false
    | some leaderAddr =>
      if leaderAddr ≠ env.dqliteAddr then false
      else if !env.localClientOk then false
      else true

/-- Process-local database handle state: whether the open canceller has been
resolved, and the membership rows visible through the handle. -/
structure DBState where
  openResolved : Bool
  members : List InternalClusterMember
deriving DecidableEq

/-- The handle produced by NewDB: open canceller unresolved, no rows yet. -/
def NewDBState : DBState := { openResolved := false, members := [] }

/-- DB.IsOpen: false on a nil handle, else whether the open canceller has been
resolved. -/
def IsOpen : Option DBState → Bool
  | none => false
  | some s => s.openResolved

/-- Modelled from the spec: DB.Open is not under src. The spec describes the
open state as a one-way transition observed through a cancellation signal that
is resolved exactly once, the moment the schema is loaded; a failed open
returns the error and leaves the signal unresolved. -/
def OpenModel (engineOpenOk : Bool) (s : DBState) : Except String DBState :=
  if engineOpenOk then Except.ok { s with openResolved := true }
  else Except.error "open failed"

/-- DB.Bootstrap: configure a new single-member engine (dqlite.New), returning
the wrapped error on failure, and otherwise open the handle. -/
def Bootstrap (engineNewOk engineOpenOk : Bool) (s : DBState) : Except String DBState :=
  if !engineNewOk then Except.error "Failed to bootstrap dqlite"
  else OpenModel engineOpenOk s

/-- The bootstrap branch of Daemon.StartAPI: run DB.Bootstrap, then inside a
transaction create the membership row for this node with role Pending, the
local schema version, zero heartbeat time, and the own name, address and
certificate of the node. -/
def StartAPIBootstrap (name addr cert : String) (schemaVersion : Int)
    (engineNewOk engineOpenOk : Bool) (s : DBState) : Except String DBState :=
  match Bootstrap engineNewOk engineOpenOk s with
  | Except.error e => Except.error e
  | Except.ok s1 =>
      Except.ok { s1 with members := s1.members ++
        [{ id := 0, name := name, address := addr, certificate := cert,
           schema := schemaVersion, heartbeat := 0, role := Pending }] }

/-- The Go zero time, as an integer instant. -/
def zeroTime : Int := 0

/-- time.Until: the duration from now to the given instant. -/
def timeUntil (now t : Int) : Int := t - now

/-- ctx.Deadline: the deadline together with the ok flag; when no deadline is
set the returned instant is the zero time and the flag is false. -/
def ctxDeadline (d : Option Int) : Int × Bool := (d.getD zeroTime, d.isSome)

/-- The dialer timeout computed in dqliteNetworkDial: time.Until applied to the
first component of ctx.Deadline, discarding the ok flag. -/
def dialTimeout (now : Int) (d : Option Int) : Int :=
  timeUntil now (ctxDeadline d).1

/-- A concrete membership table holding two rows that share one address, used
to evaluate the affected-row check of the schema-version update. -/
def c8table : List InternalClusterMember :=
  [{ id := 1, name := "a", address := "x:1", certificate := "c",
     schema := 0, heartbeat := 0, role := Pending },
   { id := 2, name := "b", address := "x:1", certificate := "c",
     schema := 0, heartbeat := 0, role := Pending }]

/-- C2: the claim fails on the code. GetClusterMemberSchemaVersions filters the
role column against the lowercase literal pending under the case-sensitive
default collation, while admission writes the role constant Pending, spelled in
upper case; at a table holding exactly one pending member with schema version 3
the query returns that version instead of excluding the row, contradicting the
documentation of the function. -/
theorem c2_pending_row_not_excluded :
    GetClusterMemberSchemaVersions
      [{ id := 1, name := "node", address := "addr:1", certificate := "cert",
         schema := 3, heartbeat := 0, role := Pending }] = [3] := by
  decide

/-- C3 counterexample: after two successive NotifyUpgraded calls on the fresh
handle with no concurrently waiting consumer, zero notifications are pending,
not exactly one: the upgrade channel created by NewDB is unbuffered. -/
theorem c3_counterexample :
    ((NotifyUpgraded (NotifyUpgraded newUpgradeCh).2).2).pending = 0 ∧
    ¬ ((NotifyUpgraded (NotifyUpgraded newUpgradeCh).2).2).pending = 1 := by
  decide

/-- C3 amended: NotifyUpgraded never blocks and never errors; with no
concurrently waiting consumer both successive calls return immediately as
no-ops that drop the notification, and afterwards no notification is pending,
because the upgrade channel is unbuffered. -/
theorem c3_notify_upgraded_amended :
    NotifyUpgraded newUpgradeCh = (false, newUpgradeCh) ∧
    NotifyUpgraded (NotifyUpgraded newUpgradeCh).2 = (false, newUpgradeCh) ∧
    ((NotifyUpgraded (NotifyUpgraded newUpgradeCh).2).2).pending = 0 := by
  decide

/-- C10: the dial timeout is computed from the context deadline without
consulting the ok flag; with no deadline the instant used is the zero time, so
for any positive current instant the computed timeout equals the negative
duration until the zero time, and in particular is negative rather than the
no-timeout zero value. -/
theorem c10_dial_timeout_no_deadline (now : Int) (h : 0 < now) :
    dialTimeout now none = timeUntil now zeroTime ∧
    dialTimeout now none = zeroTime - now ∧
    dialTimeout now none < 0 := by
  refine ⟨rfl, rfl, ?_⟩
  simp only [dialTimeout, timeUntil, ctxDeadline, zeroTime, Option.getD]
  omega

/-- C10 witness: at the concrete instant 1 with no deadline the computed
timeout is the negative duration until the zero time. -/
theorem c10_dial_timeout_no_deadline_witness :
    dialTimeout 1 none = timeUntil 1 zeroTime ∧
    dialTimeout 1 none = zeroTime - 1 ∧
    dialTimeout 1 none < 0 :=
  c10_dial_timeout_no_deadline 1 (by decide)

/-- C4: a dial whose exchange reaches a response with status 426 returns the
distinguished upgradeNeeded error, which differs from every generic transport
failure constructor, and the connection is closed rather than handed to the
engine. -/
theorem c4_status_426_distinguished (ex : Exchange)
    (hw : ex.writeOk = true) (hr : ex.readOk = true)
    (hs : ex.statusCode = StatusUpgradeRequired) :
    dqliteNetworkDialExchange ex = Except.error DialError.upgradeNeeded ∧
    dialConnClosed ex = true ∧
    DialError.upgradeNeeded ≠ DialError.writeFailed ∧
    DialError.upgradeNeeded ≠ DialError.readFailed ∧
    (∀ c : Nat, DialError.upgradeNeeded ≠ DialError.unexpectedStatus c) ∧
    DialError.upgradeNeeded ≠ DialError.missingUpgradeHeader := by
  have h1 : dqliteNetworkDialExchange ex = Except.error DialError.upgradeNeeded := by
    simp [dqliteNetworkDialExchange, hw, hr, hs]
  refine ⟨h1, ?_, by decide, by decide, fun c h => DialError.noConfusion h, by decide⟩
  simp [dialConnClosed, h1, isOk]

/-- C4 witness: the concrete exchange that writes and reads successfully and
receives status 426 yields the distinguished error with the connection closed. -/
theorem c4_status_426_distinguished_witness :
    dqliteNetworkDialExchange
      { writeOk := true, readOk := true, statusCode := 426, upgradeHeader := "x" } =
      Except.error DialError.upgradeNeeded ∧
    dialConnClosed
      { writeOk := true, readOk := true, statusCode := 426, upgradeHeader := "x" } = true ∧
    DialError.upgradeNeeded ≠ DialError.writeFailed ∧
    DialError.upgradeNeeded ≠ DialError.readFailed ∧
    (∀ c : Nat, DialError.upgradeNeeded ≠ DialError.unexpectedStatus c) ∧
    DialError.upgradeNeeded ≠ DialError.missingUpgradeHeader :=
  c4_status_426_distinguished _ rfl rfl rfl

/-- C5: the dial hands back the open connection exactly when the request write,
the response read, the 101 status, and the dqlite Upgrade header all succeed;
on every other exchange after TLS establishment it returns an error with the
established connection closed first. -/
theorem c5_conn_closed_on_failure (ex : Exchange) :
    (isOk (dqliteNetworkDialExchange ex) = true ↔
      (ex.writeOk = true ∧ ex.readOk = true ∧
       ex.statusCode = StatusSwitchingProtocols ∧ ex.upgradeHeader = "dqlite")) ∧
    dialConnClosed ex = !(isOk (dqliteNetworkDialExchange ex)) := by
  refine ⟨?_, rfl⟩
  unfold dqliteNetworkDialExchange
  by_cases hw : ex.writeOk = true <;> by_cases hr : ex.readOk = true <;>
    by_cases h426 : ex.statusCode = StatusUpgradeRequired <;>
    by_cases h101 : ex.statusCode = StatusSwitchingProtocols <;>
    by_cases hh : ex.upgradeHeader = "dqlite" <;>
    simp_all [isOk, StatusUpgradeRequired, StatusSwitchingProtocols]

/-- C5 witness: the fully successful concrete exchange hands back the open
connection. -/
theorem c5_conn_closed_on_failure_witness :
    isOk (dqliteNetworkDialExchange
      { writeOk := true, readOk := true, statusCode := 101, upgradeHeader := "dqlite" }) = true :=
  (c5_conn_closed_on_failure _).1.mpr ⟨rfl, rfl, rfl, rfl⟩

/-- C8: UpdateClusterMemberSchemaVersion succeeds exactly when one row matches
the address, and otherwise returns the explicit invariant-violation error that
names the affected-row count, in particular at zero and at two matching rows. -/
theorem c8_update_exactly_one_row (table : List InternalClusterMember)
    (version : Int) (address : String) :
    (isOk (UpdateClusterMemberSchemaVersion table version address) = true ↔
      (table.filter (fun r => r.address == address)).length = 1) ∧
    ((table.filter (fun r => r.address == address)).length ≠ 1 →
      UpdateClusterMemberSchemaVersion table version address =
        Except.error ("updated " ++
          toString (table.filter (fun r => r.address == address)).length ++
          " rows instead of 1")) := by
  unfold UpdateClusterMemberSchemaVersion
  by_cases h : (table.filter (fun r => r.address == address)).length = 1 <;>
    simp [h, isOk]

/-- C8 witness: at a table with two rows sharing the target address the update
returns the invariant-violation error naming two affected rows. -/
theorem c8_update_exactly_one_row_witness :
    (c8table.filter (fun r => r.address == "x:1")).length ≠ 1 ∧
    UpdateClusterMemberSchemaVersion c8table 5 "x:1" =
      Except.error ("updated " ++
        toString (c8table.filter (fun r => r.address == "x:1")).length ++
        " rows instead of 1") :=
  ⟨by decide, (c8_update_exactly_one_row c8table 5 "x:1").2 (by decide)⟩

/-- C9: ToAPI fails exactly when the address or the certificate of the row
fails to parse, and every successfully converted member reports status
MemberUnreachable regardless of the other fields of the row. -/
theorem c9_toapi_status_unreachable (c : InternalClusterMember) :
    (isOk (ToAPI c) = true ↔
      ((ParseAddrPort c.address).isSome = true ∧
       (ParseX509Certificate c.certificate).isSome = true)) ∧
    (∀ m, ToAPI c = Except.ok m → m.status = MemberUnreachable) := by
  constructor
  · cases hpa : ParseAddrPort c.address <;>
      cases hpc : ParseX509Certificate c.certificate <;>
      simp [ToAPI, isOk, hpa, hpc]
  · intro m hm
    cases hpa : ParseAddrPort c.address <;>
      cases hpc : ParseX509Certificate c.certificate <;>
      simp only [ToAPI, hpa, hpc] at hm <;>
      first
      | exact Except.noConfusion hm
      | (cases hm; rfl)

/-- C9 witness: a concrete row with a parseable address and certificate
converts successfully. -/
theorem c9_toapi_status_unreachable_witness :
    isOk (ToAPI
      { id := 1, name := "n", address := "10.0.0.1:8443",
        certificate := "-----BEGIN CERTIFICATE-----abc",
        schema := 2, heartbeat := 0, role := Pending }) = true :=
  (c9_toapi_status_unreachable _).1.mpr (by decide)

/-- The heartbeat issues its instruction exactly when the handle is open, the
leader is resolved to the own address of this node, and a local client exists. -/
theorem heartbeat_eq_true_iff (env : HeartbeatEnv) :
    heartbeat env = true ↔
      (env.isOpenNow = true ∧ env.leaderClientOk = true ∧
       env.leaderInfoAddr = some env.dqliteAddr ∧ env.localClientOk = true) := by
  unfold heartbeat
  cases ho : env.isOpenNow <;> cases hl : env.leaderClientOk <;>
    cases hc : env.localClientOk <;> cases ha : env.leaderInfoAddr <;>
    simp_all

/-- C7: a heartbeat invocation on a node whose own dqlite address differs from
the self-reported leader address issues no begin-heartbeat-round instruction
and surfaces no caller-visible error, and the instruction is ever issued only
when the reported leader address equals the own address of the node. -/
theorem c7_heartbeat_leader_gate (env : HeartbeatEnv) :
    (∀ a : String, env.leaderInfoAddr = some a → a ≠ env.dqliteAddr →
      heartbeat env = false) ∧
    (heartbeat env = true → env.leaderInfoAddr = some env.dqliteAddr) := by
  constructor
  · intro a ha hne
    cases hh : heartbeat env
    · rfl
    · have hla := ((heartbeat_eq_true_iff env).mp hh).2.2.1
      rw [ha] at hla
      exact absurd (Option.some.inj hla) hne
  · intro h
    exact ((heartbeat_eq_true_iff env).mp h).2.2.1

/-- C7 witness: on a concrete non-leader environment the invocation issues no
instruction. -/
theorem c7_heartbeat_leader_gate_witness :
    heartbeat { isOpenNow := true, leaderClientOk := true,
                leaderInfoAddr := some "b", dqliteAddr := "a",
                localClientOk := true } = false :=
  (c7_heartbeat_leader_gate _).1 "b" rfl (by decide)

/-- C6: every successful bootstrap starts from a handle on which IsOpen is
false (and IsOpen of a nil handle is false), ends with IsOpen true, and leaves
exactly one membership row, carrying role Pending, the local schema version at
bootstrap time, and the own name, address and certificate of the node. -/
theorem c6_bootstrap_membership (name addr cert : String) (v : Int)
    (eNew eOpen : Bool) (s : DBState)
    (hs : StartAPIBootstrap name addr cert v eNew eOpen NewDBState = Except.ok s) :
    IsOpen (some NewDBState) = false ∧ IsOpen none = false ∧
    IsOpen (some s) = true ∧
    s.members = [{ id := 0, name := name, address := addr, certificate := cert,
                   schema := v, heartbeat := 0, role := Pending }] := by
  cases eNew with
  | false => simp [StartAPIBootstrap, Bootstrap] at hs
  | true =>
    cases eOpen with
    | false => simp [StartAPIBootstrap, Bootstrap, OpenModel] at hs
    | true =>
      have hs2 : ({ openResolved := true, members :=
          [{ id := 0, name := name, address := addr, certificate := cert,
             schema := v, heartbeat := 0, role := Pending }] } : DBState) = s :=
        Except.ok.inj hs
      subst hs2
      exact ⟨rfl, rfl, rfl, rfl⟩

/-- C6 witness: at concrete parameters with a succeeding engine, the bootstrap
yields the open handle holding exactly the own pending row of the node. -/
theorem c6_bootstrap_membership_witness :
    IsOpen (some NewDBState) = false ∧ IsOpen none = false ∧
    IsOpen (some { openResolved := true, members :=
      [{ id := 0, name := "n", address := "a:1", certificate := "c",
         schema := 2, heartbeat := 0, role := Pending }] }) = true ∧
    DBState.members
      { openResolved := true, members :=
        [{ id := 0, name := "n", address := "a:1", certificate := "c",
           schema := 2, heartbeat := 0, role := Pending }] } =
      [{ id := 0, name := "n", address := "a:1", certificate := "c",
         schema := 2, heartbeat := 0, role := Pending }] :=
  c6_bootstrap_membership "n" "a:1" "c" 2 true true _ rfl

/-- C1: a Join run that meets consecutive graceful-restart conditions and then
a terminal attempt closes the local handle exactly once per graceful condition
before the final attempt, configures every attempt with the same cluster
certificate and join addresses, returns the value of the terminal attempt
(success, a non-graceful open failure, or a wrapped engine-configuration
failure), and logs each close failure without letting it affect the outcome. -/
theorem c1_join_graceful_retry (cert : String) (addrs : List String)
    (gs : List Bool) (t : AttemptOutcome) (ht : terminal t = true) :
    (Join cert addrs (gs.map AttemptOutcome.openGraceful ++ [t])).closes = gs.length ∧
    (Join cert addrs (gs.map AttemptOutcome.openGraceful ++ [t])).attempts =
      List.replicate (gs.length + 1) (cert, addrs) ∧
    (Join cert addrs (gs.map AttemptOutcome.openGraceful ++ [t])).result =
      some (terminalResult t) ∧
    (Join cert addrs (gs.map AttemptOutcome.openGraceful ++ [t])).closeErrorLogs =
      (gs.filter (fun b => !b)).length := by
  induction gs with
  | nil =>
    cases t with
    | newFail e => simp [Join, terminalResult]
    | openOk => simp [Join, terminalResult]
    | openGraceful c => simp [terminal] at ht
    | openFail e => simp [Join, terminalResult]
  | cons g gs ih =>
    obtain ⟨h1, h2, h3, h4⟩ := ih
    refine ⟨?_, ?_, ?_, ?_⟩
    · simp [Join, h1]
    · simp [Join, h2, List.replicate]
    · simp [Join, h3]
    · cases g <;> simp [Join, h4]
      omega

/-- C1 witness: two graceful-restart conditions, the second with a failing
close, followed by a successful open: two closes, three identical attempts, a
nil result, and one close-failure log entry. -/
theorem c1_join_graceful_retry_witness :
    (Join "cert" ["peer:1"]
      (List.map AttemptOutcome.openGraceful [true, false] ++
        [AttemptOutcome.openOk])).closes = 2 ∧
    (Join "cert" ["peer:1"]
      (List.map AttemptOutcome.openGraceful [true, false] ++
        [AttemptOutcome.openOk])).attempts =
      List.replicate 3 ("cert", ["peer:1"]) ∧
    (Join "cert" ["peer:1"]
      (List.map AttemptOutcome.openGraceful [true, false] ++
        [AttemptOutcome.openOk])).result = some (Except.ok ()) ∧
    (Join "cert" ["peer:1"]
      (List.map AttemptOutcome.openGraceful [true, false] ++
        [AttemptOutcome.openOk])).closeErrorLogs = 1 :=
  c1_join_graceful_retry "cert" ["peer:1"] [true, false] AttemptOutcome.openOk rfl

end Microcluster
